import Mathlib

/-!
Shallow embedding of `easylog.py` (the `Easylog` facade over Python's
`logging` module) together with proofs about the behaviour its
specification describes.

The embedding follows the source file closely:

* Python dictionaries with the fixed keys `'file'` and `'console'`
  (`self._namecounters`, `self._dateformats`) become two-field structures
  with a string-keyed lookup that mirrors `dict.__getitem__` (returning
  `none` where Python would raise `KeyError`).
* Methods that can raise become functions into `Except PyError`.  Every
  `raise` in the source happens before any attribute of the facade is
  mutated, so an `Except.error` result faithfully leaves the pre-call
  state in place.
* `logging.Formatter(fmt, datefmt)` is modelled as a record of the two
  strings it stores; `logging.StreamHandler`/`logging.FileHandler` as a
  sink descriptor plus the level and formatter set by `_add_logger`.
* Python's `str.lower()` is modelled as mapping `Char.toLower` over the
  characters, and `str(n)` as `Nat.repr n`.
-/

set_option linter.unusedVariables false

/-- Severity constant `logging.CRITICAL` of the Python logging backend. -/
def loggingCRITICAL : Nat := 50

/-- Severity constant `logging.ERROR`. -/
def loggingERROR : Nat := 40

/-- Severity constant `logging.WARNING`. -/
def loggingWARNING : Nat := 30

/-- Severity constant `logging.INFO`. -/
def loggingINFO : Nat := 20

/-- Severity constant `logging.DEBUG`. -/
def loggingDEBUG : Nat := 10

/-- Exceptions the code in `easylog.py` can raise.  `valueErrorDuplicateName`
is the `ValueError` at line 110, `valueErrorInvalidLevel` the `ValueError` at
line 233; `keyError` models `dict.__getitem__` on a missing key;
`noDefinedHandlersError` / `noHandlersFoundError` are the exception classes
defined at the bottom of the file; `indexError` / `typeError` model the
built-in exceptions raised by `handler_records[0]` on an empty list and by
`handler_records['handler']` (indexing a list with a string). -/
inductive PyError where
  | valueErrorDuplicateName (logname : String)
  | valueErrorInvalidLevel
  | keyError (key : String)
  | noDefinedHandlersError (message : String)
  | noHandlersFoundError (message : String)
  | indexError
  | typeError
deriving Repr, DecidableEq

/-- Model of `logging.Formatter(fmt, datefmt)`: the two arguments it stores.
`fmt` is an `Option` because `_default_log_format` can return `None`. -/
structure Formatter where
  fmt : Option String
  datefmt : String
deriving Repr, DecidableEq

/-- The output sink of a handler: `logging.StreamHandler(stream=...)` or
`logging.FileHandler(logpath, mode, encoding, delay)`.  The stream itself is
opaque; we keep an identifying string when one is supplied. -/
inductive HandlerSink where
  | stream (stream : Option String)
  | file (logpath : String) (mode : String) (encoding : String) (delay : Bool)
deriving Repr, DecidableEq

/-- A `logging.Handler` as far as `easylog` manipulates it: its sink, the
level set by `setLevel` (a fresh handler has level `0`, `logging.NOTSET`),
and the formatter set by `setFormatter`. -/
structure Handler where
  sink : HandlerSink
  level : Nat
  formatter : Option Formatter
deriving Repr, DecidableEq

/-- The dictionary built by `_logger_record(handler, name, loggertype,
loglevel, dateformat)` (easylog.py lines 238-242). -/
structure LoggerRecord where
  handler : Handler
  name : String
  loggertype : String
  loglevel : Nat
  dateformat : String
deriving Repr, DecidableEq

/-- The dict `self._namecounters = \x7b'file': 0, 'console': 0\x7d`. -/
structure NameCounters where
  file : Nat
  console : Nat
deriving Repr, DecidableEq

/-- Lookup `self._namecounters[k]`, `none` where Python raises `KeyError`. -/
def NameCounters.get (d : NameCounters) (k : String) : Option Nat :=
  if k = "file" then some d.file
  else if k = "console" then some d.console
  else none

/-- Increment `self._namecounters[k] += 1` (on either of the two existing keys). -/
def NameCounters.incr (d : NameCounters) (k : String) : NameCounters :=
  if k = "file" then { d with file := d.file + 1 }
  else if k = "console" then { d with console := d.console + 1 }
  else d

/-- The dict `self._dateformats` holding the two default date formats. -/
structure DateFormats where
  file : String
  console : String
deriving Repr, DecidableEq

/-- Lookup `self._dateformats[k]`, `none` where Python raises `KeyError`. -/
def DateFormats.get (d : DateFormats) (k : String) : Option String :=
  if k = "file" then some d.file
  else if k = "console" then some d.console
  else none

/-- The state of an `Easylog` instance.  `loggerLevel` and `loggerHandlers`
model the underlying `logging.Logger` object obtained by
`logging.getLogger(self._loggername)`: the level set by `setLevel` and the
handlers attached by `addHandler`. -/
structure Easylog where
  _handlers : List LoggerRecord
  _loggername : String
  _globallevel : Nat
  _filecounter : Nat
  _namecounters : NameCounters
  _dateformats : DateFormats
  _lognames : List String
  loggerLevel : Nat
  loggerHandlers : List Handler
deriving Repr, DecidableEq

/-- Model of Python's `str.lower()`: lower-case every character. -/
def pyLower (s : String) : String := ⟨s.data.map Char.toLower⟩

/-- Embeds `_default_log_format(handlertype)` (easylog.py lines 202-212); returns
`none` (Python `None`) for an unrecognised handler type. -/
def _default_log_format (handlertype : String) : Option String :=
  if handlertype = "console" then some "%(levelname)s - %(message)s"
  else if handlertype = "file" then
    some "%(asctime)s - %(name)s - %(levelname)s - %(message)s"
  else if handlertype = "module" then
    some "%(asctime)s - %(name)s - %(levelname)s - %(message)s"
  else none

/-- Embeds `_string2loglevel(loglevel)` (easylog.py lines 215-235). -/
def _string2loglevel (loglevel : String) : Except PyError Nat :=
  let loglevel := pyLower loglevel
  if loglevel = "critical" then Except.ok loggingCRITICAL
  else if loglevel = "error" then Except.ok loggingERROR
  else if loglevel = "warning" then Except.ok loggingWARNING
  else if loglevel = "info" then Except.ok loggingINFO
  else if loglevel = "debug" then Except.ok loggingDEBUG
  else Except.error PyError.valueErrorInvalidLevel

/-- Embeds `_logger_record(handler, name, loggertype, loglevel, dateformat)`
(easylog.py lines 238-242). -/
def _logger_record (handler : Handler) (name : String) (loggertype : String)
    (loglevel : Nat) (dateformat : String) : LoggerRecord :=
  { handler := handler, name := name, loggertype := loggertype,
    loglevel := loglevel, dateformat := dateformat }

/-- Embeds `Easylog.handler_names` (easylog.py lines 181-184). -/
def Easylog.handler_names (self : Easylog) : List String :=
  self._handlers.map (fun a_logger => a_logger.name)

/-- The local dict `log_controls` built by `_log_controls`. -/
structure LogControls where
  logtype : String
  logname : String
  loglevel : Nat
  logformat : Formatter
  dateformat : String
deriving Repr, DecidableEq

/-- Embeds `Easylog._log_controls` (easylog.py lines 103-127).  The returned state
carries the possible increment of the name counter performed when an
automatic name is generated. -/
def Easylog._log_controls (self : Easylog) (logtype : String)
    (logname : Option String) (loglevel : Option Nat)
    (logformat : Option String) (dateformat : Option String) :
    Except PyError (Easylog × LogControls) := do
  let (self, logname) ←
    (match logname with
     | none =>
       match self._namecounters.get logtype with
       | none => Except.error (PyError.keyError logtype)
       | some ctr =>
         Except.ok ({ self with _namecounters := self._namecounters.incr logtype },
                    logtype ++ Nat.repr ctr)
     | some logname =>
       if logname ∈ self.handler_names then
         Except.error (PyError.valueErrorDuplicateName logname)
       else
         Except.ok (self, logname) : Except PyError (Easylog × String))
  let loglevel : Nat :=
    match loglevel with
    | none => self._globallevel
    | some l => l
  let logformat : Option String :=
    match logformat with
    | none => _default_log_format logtype
    | some f => some f
  let dateformat ←
    (match dateformat with
     | none =>
       match self._dateformats.get logtype with
       | none => Except.error (PyError.keyError logtype)
       | some d => Except.ok d
     | some d => Except.ok d : Except PyError String)
  let logformatObj : Formatter := { fmt := logformat, datefmt := dateformat }
  Except.ok (self, { logtype := logtype, logname := logname,
                     loglevel := loglevel, logformat := logformatObj,
                     dateformat := dateformat })

/-- Embeds `Easylog._add_logger` (easylog.py lines 129-140): set level and formatter
on the handler, attach it to the underlying logger, append the record. -/
def Easylog._add_logger (self : Easylog) (log_handler : Handler)
    (log_controls : LogControls) : Easylog :=
  let log_handler :=
    { log_handler with level := log_controls.loglevel,
                       formatter := some log_controls.logformat }
  let self := { self with loggerHandlers := self.loggerHandlers ++ [log_handler] }
  let log_rec := _logger_record log_handler log_controls.logname
    log_controls.logtype log_controls.loglevel log_controls.dateformat
  { self with _handlers := self._handlers ++ [log_rec] }

/-- Embeds `Easylog.add_consolelogger` (easylog.py lines 142-148). -/
def Easylog.add_consolelogger (self : Easylog) (logname : Option String)
    (loglevel : Option Nat) (logformat : Option String)
    (stream : Option String) (dateformat : Option String) :
    Except PyError Easylog := do
  let (self, log_controls) ←
    self._log_controls "console" logname loglevel logformat dateformat
  let log_handler : Handler :=
    { sink := HandlerSink.stream stream, level := 0, formatter := none }
  Except.ok (self._add_logger log_handler log_controls)

/-- Embeds `Easylog.add_filelogger` (easylog.py lines 150-157).  Note the source
passes the string `'console'` — not `'file'` — as the logtype to
`_log_controls` (line 153). -/
def Easylog.add_filelogger (self : Easylog) (logpath : String)
    (logname : Option String) (loglevel : Option Nat)
    (logformat : Option String) (dateformat : Option String)
    (encoding : String) (mode : String) (delay : Bool) :
    Except PyError Easylog := do
  let (self, log_controls) ←
    self._log_controls "console" logname loglevel logformat dateformat
  let log_handler : Handler :=
    { sink := HandlerSink.file logpath mode encoding delay,
      level := 0, formatter := none }
  Except.ok (self._add_logger log_handler log_controls)

/-- Embeds `Easylog.set_logformat` (easylog.py lines 159-179), with the branch
structure exactly as written: a non-empty `self._handlers` takes the
`raise NoDefinedHandlersError` branch; on an empty registry the filter
result is empty, the `if handler_records:` test fails, and
`handler_records[0]` raises `IndexError`.  (The final line 179,
`handler_records['handler']`, would raise `TypeError`; it is unreachable.) -/
def Easylog.set_logformat (self : Easylog) (handlername : String)
    (fmt : String) (dateformat : Option String) : Except PyError Easylog :=
  if !self._handlers.isEmpty then
    Except.error (PyError.noDefinedHandlersError "No Logging Handlers have been defined")
  else
    let handler_records :=
      self._handlers.filter (fun a_handler => a_handler.name = handlername)
    if !handler_records.isEmpty then
      Except.error (PyError.noHandlersFoundError
        ("No handler of the name '" ++ handlername ++ "' was found"))
    else
      match handler_records with
      | [] => Except.error PyError.indexError
      | handler_rec :: _ =>
        let dateformat :=
          match dateformat with
          | none => handler_rec.dateformat
          | some d => d
        let _fmtObj : Formatter := { fmt := some fmt, datefmt := dateformat }
        Except.error PyError.typeError

/-- Embeds `Easylog.__init__` (easylog.py lines 56-91).  `__name__` of the module
is the string `"easylog"`. -/
def Easylog.init (loggername : Option String) (globallevel : String)
    (create_console : Bool) : Except PyError Easylog := do
  let glevel ← _string2loglevel globallevel
  let self : Easylog :=
    { _handlers := [],
      _loggername := loggername.getD "easylog",
      _globallevel := glevel,
      _filecounter := 0,
      _namecounters := { file := 0, console := 0 },
      _dateformats := { file := "%Y-%m-%dT%H:%M:%S", console := "%I:%M:%S %p" },
      _lognames := [],
      loggerLevel := loggingDEBUG,
      loggerHandlers := [] }
  if create_console then
    self.add_consolelogger none none none none none
  else
    Except.ok self

/-- The handlers that emit a record of severity `levelno`: the logger passes
it on when `levelno` reaches its own level, and each attached handler emits
when `levelno` reaches the handler's level. -/
def Easylog.callHandlers (self : Easylog) (levelno : Nat) : List Handler :=
  if self.loggerLevel ≤ levelno then
    self.loggerHandlers.filter (fun h => h.level ≤ levelno)
  else []

/-- Embeds `Easylog.log_critical` (easylog.py lines 186-187): state unchanged,
returns the handlers that emit the message. -/
def Easylog.log_critical (self : Easylog) (msg : String) : Easylog × List Handler :=
  (self, self.callHandlers loggingCRITICAL)

/-- Embeds `Easylog.log_error` (easylog.py lines 189-190). -/
def Easylog.log_error (self : Easylog) (msg : String) : Easylog × List Handler :=
  (self, self.callHandlers loggingERROR)

/-- Embeds `Easylog.log_warning` (easylog.py lines 192-193). -/
def Easylog.log_warning (self : Easylog) (msg : String) : Easylog × List Handler :=
  (self, self.callHandlers loggingWARNING)

/-- Embeds `Easylog.log_info` (easylog.py lines 195-196). -/
def Easylog.log_info (self : Easylog) (msg : String) : Easylog × List Handler :=
  (self, self.callHandlers loggingINFO)

/-- Embeds `Easylog.log_debug` (easylog.py lines 198-199). -/
def Easylog.log_debug (self : Easylog) (msg : String) : Easylog × List Handler :=
  (self, self.callHandlers loggingDEBUG)

/-- A public mutating call on an `Easylog` instance. -/
inductive Op where
  | addConsole (logname : Option String) (loglevel : Option Nat)
      (logformat : Option String) (stream : Option String)
      (dateformat : Option String)
  | addFile (logpath : String) (logname : Option String) (loglevel : Option Nat)
      (logformat : Option String) (dateformat : Option String)
      (encoding : String) (mode : String) (delay : Bool)
  | setFormat (handlername : String) (fmt : String) (dateformat : Option String)
deriving Repr, DecidableEq

/-- Run one call on the instance. -/
def Easylog.applyOp (self : Easylog) : Op → Except PyError Easylog
  | Op.addConsole a b c d e => self.add_consolelogger a b c d e
  | Op.addFile p a b c d enc m dl => self.add_filelogger p a b c d enc m dl
  | Op.setFormat n f d => self.set_logformat n f d

/-- Run one call, keeping the old state when it raises.  (Every `raise` in
the source occurs before any attribute is mutated, so this matches the state
of the Python object after a raising call.) -/
def Easylog.stepOp (self : Easylog) (op : Op) : Easylog :=
  match self.applyOp op with
  | Except.ok s => s
  | Except.error _ => self

/-- Run a sequence of calls. -/
def Easylog.runOps (self : Easylog) : List Op → Easylog
  | [] => self
  | op :: ops => (self.stepOp op).runOps ops

/-- States reachable by constructing an instance and making any sequence of
public calls on it. -/
def Reachable (s : Easylog) : Prop :=
  ∃ ln gl cc s0 ops, Easylog.init ln gl cc = Except.ok s0 ∧ s = s0.runOps ops


/-- Numeric value of a decimal digit character. -/
def charToDigit (c : Char) : Nat := c.toNat - 48

/-- One step of reading a decimal numeral left to right. -/
def decimalStep (a : Nat) (c : Char) : Nat := 10 * a + charToDigit c

/-- Value of a list of decimal digit characters, most significant first. -/
def decimalVal (l : List Char) : Nat := l.foldl decimalStep 0

/-- Holds of a call that does not supply an explicit handler name (and of
`set_logformat`, which never registers a name). -/
def AutoNamed : Op → Prop
  | Op.addConsole ln _ _ _ _ => ln = none
  | Op.addFile _ ln _ _ _ _ _ _ => ln = none
  | Op.setFormat _ _ _ => True

/-- The facade state created by `Easylog()` with all-default arguments
(loggername `None`, globallevel `'info'`, `create_console=True`); proved
equal to the result of `Easylog.init` below and used as a concrete state. -/
def defaultState : Easylog :=
  { _handlers := [{ handler := { sink := HandlerSink.stream none, level := 20,
                                 formatter := some { fmt := some "%(levelname)s - %(message)s",
                                                     datefmt := "%I:%M:%S %p" } },
                    name := "console0", loggertype := "console", loglevel := 20,
                    dateformat := "%I:%M:%S %p" }],
    _loggername := "easylog", _globallevel := 20, _filecounter := 0,
    _namecounters := { file := 0, console := 1 },
    _dateformats := { file := "%Y-%m-%dT%H:%M:%S", console := "%I:%M:%S %p" },
    _lognames := [], loggerLevel := 10,
    loggerHandlers := [{ sink := HandlerSink.stream none, level := 20,
                         formatter := some { fmt := some "%(levelname)s - %(message)s",
                                             datefmt := "%I:%M:%S %p" } }] }

/-- The accumulator of `Nat.toDigitsCore` is a suffix of its output. -/
lemma toDigitsCore_append (b f : Nat) :
    ∀ (n : Nat) (l : List Char),
      Nat.toDigitsCore b f n l = Nat.toDigitsCore b f n [] ++ l := by
  induction f with
  | zero => intro n l; simp [Nat.toDigitsCore]
  | succ f ih =>
    intro n l
    simp only [Nat.toDigitsCore]
    by_cases h : n / b = 0
    · simp [h]
    · simp only [h, if_false]
      rw [ih (n / b) [Nat.digitChar (n % b)], ih (n / b) (Nat.digitChar (n % b) :: l)]
      simp

/-- Reading back a digit character gives the digit. -/
lemma charToDigit_digitChar (m : Nat) (h : m < 10) :
    charToDigit (Nat.digitChar m) = m := by
  interval_cases m <;> rfl

/-- Folding the decimal reader over `Nat.toDigitsCore 10` recovers the
number (with the accumulator scaled by the width). -/
lemma foldl_decimal_toDigitsCore (f : Nat) :
    ∀ (n a : Nat), n < f →
      List.foldl decimalStep a (Nat.toDigitsCore 10 f n []) =
        a * 10 ^ (Nat.toDigitsCore 10 f n []).length + n := by
  induction f with
  | zero => intro n a h; omega
  | succ f ih =>
    intro n a h
    simp only [Nat.toDigitsCore]
    by_cases h10 : n / 10 = 0
    · have hn : n < 10 := by omega
      simp [h10, List.foldl, decimalStep, charToDigit_digitChar (n % 10) (Nat.mod_lt _ (by omega))]
      omega
    · simp only [h10, if_false]
      rw [toDigitsCore_append 10 f (n / 10) [Nat.digitChar (n % 10)]]
      have hlt : n / 10 < f := by
        have h1 : n / 10 < n := Nat.div_lt_self (by omega) (by omega)
        omega
      rw [List.foldl_append, List.length_append]
      rw [ih (n / 10) a hlt]
      simp only [List.foldl, List.length, decimalStep,
        charToDigit_digitChar (n % 10) (Nat.mod_lt _ (by omega))]
      have hmod : 10 * (n / 10) + n % 10 = n := Nat.div_add_mod n 10
      ring_nf
      omega

/-- Reading the characters of `Nat.repr n` gives back `n`. -/
lemma decimalVal_repr_data (n : Nat) : decimalVal (Nat.repr n).data = n := by
  have h : (Nat.repr n).data = Nat.toDigitsCore 10 (n + 1) n [] := rfl
  rw [decimalVal, h, foldl_decimal_toDigitsCore (n + 1) n 0 (Nat.lt_succ_self n)]
  simp

/-- Auto-generated console names are injective in the counter value. -/
lemma consoleName_inj (a b : Nat)
    (h : "console" ++ Nat.repr a = "console" ++ Nat.repr b) : a = b := by
  have hd : ("console".data ++ (Nat.repr a).data) = ("console".data ++ (Nat.repr b).data) := by
    have := congrArg String.data h
    simpa [String.data_append] using this
  have hdata : (Nat.repr a).data = (Nat.repr b).data := List.append_cancel_left hd
  have := decimalVal_repr_data a
  rw [hdata, decimalVal_repr_data b] at this
  omega

/-- An auto-generated console name never starts with `file`. -/
lemma consoleName_ne_file (n : Nat) (rest : String) :
    "console" ++ Nat.repr n ≠ "file" ++ rest := by
  intro h
  have hd := congrArg String.data h
  simp [String.data_append] at hd

/-- Behaviour of `_log_controls` with logtype `'console'` and no explicit
name: the console counter is incremented and every field is resolved. -/
lemma log_controls_console_auto (s : Easylog) (ll : Option Nat) (lf df : Option String) :
    s._log_controls "console" none ll lf df =
      Except.ok ({ s with _namecounters := { file := s._namecounters.file,
                                             console := s._namecounters.console + 1 } },
        { logtype := "console",
          logname := "console" ++ Nat.repr s._namecounters.console,
          loglevel := ll.getD s._globallevel,
          logformat := { fmt := some (lf.getD "%(levelname)s - %(message)s"),
                         datefmt := df.getD s._dateformats.console },
          dateformat := df.getD s._dateformats.console }) := by
  cases ll <;> cases lf <;> cases df <;> rfl

/-- With an explicit name already in use, `_log_controls` raises the
`ValueError` of easylog.py line 110. -/
lemma log_controls_console_dup (s : Easylog) (nm : String) (ll : Option Nat)
    (lf df : Option String) (h : nm ∈ s.handler_names) :
    s._log_controls "console" (some nm) ll lf df =
      Except.error (PyError.valueErrorDuplicateName nm) := by
  simp only [Easylog._log_controls, h, if_pos]
  rfl

/-- With a fresh explicit name, `_log_controls` succeeds and leaves the
state untouched. -/
lemma log_controls_console_named (s : Easylog) (nm : String) (ll : Option Nat)
    (lf df : Option String) (h : nm ∉ s.handler_names) :
    s._log_controls "console" (some nm) ll lf df =
      Except.ok (s,
        { logtype := "console",
          logname := nm,
          loglevel := ll.getD s._globallevel,
          logformat := { fmt := some (lf.getD "%(levelname)s - %(message)s"),
                         datefmt := df.getD s._dateformats.console },
          dateformat := df.getD s._dateformats.console }) := by
  cases ll <;> cases lf <;> cases df <;>
    simp only [Easylog._log_controls, h, if_neg, ite_false, not_false_iff] <;> rfl

/-- Inversion for a successful `add_consolelogger` call. -/
lemma add_consolelogger_ok_inv (s : Easylog) (ln : Option String) (ll : Option Nat)
    (lf st df : Option String) (s' : Easylog)
    (h : s.add_consolelogger ln ll lf st df = Except.ok s') :
    ∃ s₁ lc, s._log_controls "console" ln ll lf df = Except.ok (s₁, lc) ∧
      s' = s₁._add_logger
        { sink := HandlerSink.stream st, level := 0, formatter := none } lc := by
  unfold Easylog.add_consolelogger at h
  cases hc : s._log_controls "console" ln ll lf df with
  | error e => rw [hc] at h; exact absurd h (by simp only [Bind.bind, Except.bind]; simp)
  | ok p =>
    rw [hc] at h
    refine ⟨p.1, p.2, rfl, ?_⟩
    simp only [Bind.bind, Except.bind] at h
    simpa using h.symm

/-- Inversion for a successful `add_filelogger` call. -/
lemma add_filelogger_ok_inv (s : Easylog) (p : String) (ln : Option String)
    (ll : Option Nat) (lf df : Option String) (enc md : String) (dl : Bool)
    (s' : Easylog) (h : s.add_filelogger p ln ll lf df enc md dl = Except.ok s') :
    ∃ s₁ lc, s._log_controls "console" ln ll lf df = Except.ok (s₁, lc) ∧
      s' = s₁._add_logger
        { sink := HandlerSink.file p md enc dl, level := 0, formatter := none } lc := by
  unfold Easylog.add_filelogger at h
  cases hc : s._log_controls "console" ln ll lf df with
  | error e => rw [hc] at h; exact absurd h (by simp only [Bind.bind, Except.bind]; simp)
  | ok q =>
    rw [hc] at h
    refine ⟨q.1, q.2, rfl, ?_⟩
    simp only [Bind.bind, Except.bind] at h
    simpa using h.symm

/-- Any successful `_log_controls 'console'` call changes at most the
console counter, and the resolved controls take the stated defaults. -/
lemma log_controls_console_state (s : Easylog) (ln : Option String) (ll : Option Nat)
    (lf df : Option String) (s₁ : Easylog) (lc : LogControls)
    (h : s._log_controls "console" ln ll lf df = Except.ok (s₁, lc)) :
    s₁._handlers = s._handlers ∧ s₁._globallevel = s._globallevel ∧
    s₁._namecounters.file = s._namecounters.file ∧
    s₁._dateformats = s._dateformats ∧
    s₁.loggerLevel = s.loggerLevel ∧ s₁.loggerHandlers = s.loggerHandlers ∧
    s._namecounters.console ≤ s₁._namecounters.console ∧
    lc.loglevel = ll.getD s._globallevel ∧ lc.logtype = "console" ∧
    lc.dateformat = df.getD s._dateformats.console := by
  cases ln with
  | none =>
    rw [log_controls_console_auto] at h
    obtain ⟨h1, h2⟩ : _ ∧ _ := by simpa using h
    subst h1; subst h2
    simp
  | some nm =>
    by_cases hm : nm ∈ s.handler_names
    · rw [log_controls_console_dup s nm ll lf df hm] at h
      exact absurd h (by simp)
    · rw [log_controls_console_named s nm ll lf df hm] at h
      obtain ⟨h1, h2⟩ : _ ∧ _ := by simpa using h
      subst h1; subst h2
      simp

/-- In the code as written, `set_logformat` never returns normally: it
raises on a non-empty registry and on an empty one alike. -/
lemma set_logformat_not_ok (s : Easylog) (n f : String) (d : Option String)
    (s' : Easylog) : s.set_logformat n f d ≠ Except.ok s' := by
  unfold Easylog.set_logformat
  cases hs : s._handlers with
  | nil => simp
  | cons a t => simp

/-- Field-by-field effect of `_add_logger`. -/
lemma add_logger_fields (s : Easylog) (h : Handler) (lc : LogControls) :
    (s._add_logger h lc)._handlers = s._handlers ++
      [_logger_record { h with level := lc.loglevel, formatter := some lc.logformat }
        lc.logname lc.logtype lc.loglevel lc.dateformat] ∧
    (s._add_logger h lc)._globallevel = s._globallevel ∧
    (s._add_logger h lc)._namecounters = s._namecounters ∧
    (s._add_logger h lc)._dateformats = s._dateformats ∧
    (s._add_logger h lc).loggerLevel = s.loggerLevel ∧
    (s._add_logger h lc).loggerHandlers = s.loggerHandlers ++
      [{ h with level := lc.loglevel, formatter := some lc.logformat }] :=
  ⟨rfl, rfl, rfl, rfl, rfl, rfl⟩

/-- Effect of `_add_logger` on `handler_names`. -/
lemma add_logger_handler_names (s : Easylog) (h : Handler) (lc : LogControls) :
    (s._add_logger h lc).handler_names = s.handler_names ++ [lc.logname] := by
  simp [Easylog.handler_names, Easylog._add_logger, _logger_record]

/-- A successful call steps to its result state. -/
lemma stepOp_ok (s : Easylog) (op : Op) (s' : Easylog)
    (h : s.applyOp op = Except.ok s') : s.stepOp op = s' := by
  simp [Easylog.stepOp, h]

/-- A raising call leaves the state unchanged. -/
lemma stepOp_error (s : Easylog) (op : Op) (e : PyError)
    (h : s.applyOp op = Except.error e) : s.stepOp op = s := by
  simp [Easylog.stepOp, h]

/-- No public call changes the global level, the file counter, the date
format defaults or the logger threshold, and the console counter never
decreases. -/
lemma stepOp_preserves (s : Easylog) (op : Op) :
    (s.stepOp op)._globallevel = s._globallevel ∧
    (s.stepOp op)._namecounters.file = s._namecounters.file ∧
    (s.stepOp op)._dateformats = s._dateformats ∧
    (s.stepOp op).loggerLevel = s.loggerLevel ∧
    s._namecounters.console ≤ (s.stepOp op)._namecounters.console := by
  cases hc : s.applyOp op with
  | error e => rw [stepOp_error s op e hc]; exact ⟨rfl, rfl, rfl, rfl, Nat.le_refl _⟩
  | ok s' =>
    rw [stepOp_ok s op s' hc]
    cases op with
    | addConsole ln ll lf st df =>
      obtain ⟨s₁, lc, h1, h2⟩ := add_consolelogger_ok_inv s ln ll lf st df s' hc
      obtain ⟨g1, g2, g3, g4, g5, g6, g7, g8, g9, g10⟩ :=
        log_controls_console_state s ln ll lf df s₁ lc h1
      subst h2
      exact ⟨g2, g3, g4, g5, g7⟩
    | addFile p ln ll lf df enc md dl =>
      obtain ⟨s₁, lc, h1, h2⟩ := add_filelogger_ok_inv s p ln ll lf df enc md dl s' hc
      obtain ⟨g1, g2, g3, g4, g5, g6, g7, g8, g9, g10⟩ :=
        log_controls_console_state s ln ll lf df s₁ lc h1
      subst h2
      exact ⟨g2, g3, g4, g5, g7⟩
    | setFormat n f d => exact absurd hc (set_logformat_not_ok s n f d s')

/-- The invariants of `stepOp_preserves`, transported along any call
sequence. -/
lemma runOps_preserves (ops : List Op) :
    ∀ (s : Easylog),
      (s.runOps ops)._globallevel = s._globallevel ∧
      (s.runOps ops)._namecounters.file = s._namecounters.file ∧
      (s.runOps ops)._dateformats = s._dateformats ∧
      (s.runOps ops).loggerLevel = s.loggerLevel := by
  induction ops with
  | nil => intro s; exact ⟨rfl, rfl, rfl, rfl⟩
  | cons op ops ih =>
    intro s
    obtain ⟨p1, p2, p3, p4, _⟩ := stepOp_preserves s op
    obtain ⟨q1, q2, q3, q4⟩ := ih (s.stepOp op)
    exact ⟨q1.trans p1, q2.trans p2, q3.trans p3, q4.trans p4⟩

/-- Facts about any successfully constructed facade state. -/
lemma init_ok_fields (ln : Option String) (gl : String) (cc : Bool) (s0 : Easylog)
    (h : Easylog.init ln gl cc = Except.ok s0) :
    _string2loglevel gl = Except.ok s0._globallevel ∧
    s0.loggerLevel = loggingDEBUG ∧
    s0._namecounters.file = 0 ∧
    s0._dateformats = { file := "%Y-%m-%dT%H:%M:%S", console := "%I:%M:%S %p" } ∧
    s0.handler_names =
      (List.range s0._namecounters.console).map (fun n => "console" ++ Nat.repr n) := by
  unfold Easylog.init at h
  cases hg : _string2loglevel gl with
  | error e => rw [hg] at h; exact absurd h (by simp only [Bind.bind, Except.bind]; simp)
  | ok glevel =>
    rw [hg] at h
    simp only [Bind.bind, Except.bind] at h
    cases cc with
    | false =>
      simp only [if_neg Bool.false_ne_true] at h
      obtain rfl : _ = s0 := by simpa using h
      exact ⟨rfl, rfl, rfl, rfl, rfl⟩
    | true =>
      simp only [if_pos rfl] at h
      rw [Easylog.add_consolelogger] at h
      rw [log_controls_console_auto] at h
      simp only [Bind.bind, Except.bind] at h
      obtain rfl : _ = s0 := by simpa using h
      exact ⟨rfl, rfl, rfl, rfl, rfl⟩

/-- Full description of an auto-named `add_consolelogger` call, which
always succeeds. -/
lemma add_consolelogger_auto_spec (s : Easylog) (ll : Option Nat) (lf st df : Option String) :
    ∃ s' r, s.add_consolelogger none ll lf st df = Except.ok s' ∧
      s'._handlers = s._handlers ++ [r] ∧
      s'.handler_names = s.handler_names ++ [r.name] ∧
      r.name = "console" ++ Nat.repr s._namecounters.console ∧
      r.loggertype = "console" ∧
      r.loglevel = ll.getD s._globallevel ∧
      r.handler.level = ll.getD s._globallevel ∧
      r.dateformat = df.getD s._dateformats.console ∧
      r.handler.formatter = some { fmt := some (lf.getD "%(levelname)s - %(message)s"),
                                   datefmt := df.getD s._dateformats.console } ∧
      r.handler.sink = HandlerSink.stream st ∧
      s'._namecounters.console = s._namecounters.console + 1 ∧
      s'._namecounters.file = s._namecounters.file ∧
      s'._globallevel = s._globallevel ∧
      s'.loggerLevel = s.loggerLevel ∧
      s'.loggerHandlers = s.loggerHandlers ++ [r.handler] ∧
      s'._dateformats = s._dateformats := by
  have h := log_controls_console_auto s ll lf df
  refine ⟨({ s with _namecounters := { file := s._namecounters.file,
                                       console := s._namecounters.console + 1 } })._add_logger
            { sink := HandlerSink.stream st, level := 0, formatter := none }
            { logtype := "console",
              logname := "console" ++ Nat.repr s._namecounters.console,
              loglevel := ll.getD s._globallevel,
              logformat := { fmt := some (lf.getD "%(levelname)s - %(message)s"),
                             datefmt := df.getD s._dateformats.console },
              dateformat := df.getD s._dateformats.console },
          _, ?_, rfl, ?_, rfl, rfl, rfl, rfl, rfl, rfl, rfl, rfl, rfl, rfl, rfl, rfl, rfl⟩
  · rw [Easylog.add_consolelogger, h]; rfl
  · simp [Easylog.handler_names, Easylog._add_logger, _logger_record]

/-- Full description of an auto-named `add_filelogger` call, which always
succeeds; note the record is typed `'console'` and draws on the console
counter, since the source passes `'console'` as logtype. -/
lemma add_filelogger_auto_spec (s : Easylog) (p : String) (ll : Option Nat)
    (lf df : Option String) (enc md : String) (dl : Bool) :
    ∃ s' r, s.add_filelogger p none ll lf df enc md dl = Except.ok s' ∧
      s'._handlers = s._handlers ++ [r] ∧
      s'.handler_names = s.handler_names ++ [r.name] ∧
      r.name = "console" ++ Nat.repr s._namecounters.console ∧
      r.loggertype = "console" ∧
      r.loglevel = ll.getD s._globallevel ∧
      r.handler.level = ll.getD s._globallevel ∧
      r.dateformat = df.getD s._dateformats.console ∧
      r.handler.formatter = some { fmt := some (lf.getD "%(levelname)s - %(message)s"),
                                   datefmt := df.getD s._dateformats.console } ∧
      r.handler.sink = HandlerSink.file p md enc dl ∧
      s'._namecounters.console = s._namecounters.console + 1 ∧
      s'._namecounters.file = s._namecounters.file ∧
      s'._globallevel = s._globallevel ∧
      s'.loggerLevel = s.loggerLevel ∧
      s'.loggerHandlers = s.loggerHandlers ++ [r.handler] ∧
      s'._dateformats = s._dateformats := by
  have h := log_controls_console_auto s ll lf df
  refine ⟨({ s with _namecounters := { file := s._namecounters.file,
                                       console := s._namecounters.console + 1 } })._add_logger
            { sink := HandlerSink.file p md enc dl, level := 0, formatter := none }
            { logtype := "console",
              logname := "console" ++ Nat.repr s._namecounters.console,
              loglevel := ll.getD s._globallevel,
              logformat := { fmt := some (lf.getD "%(levelname)s - %(message)s"),
                             datefmt := df.getD s._dateformats.console },
              dateformat := df.getD s._dateformats.console },
          _, ?_, rfl, ?_, rfl, rfl, rfl, rfl, rfl, rfl, rfl, rfl, rfl, rfl, rfl, rfl, rfl⟩
  · rw [Easylog.add_filelogger, h]; rfl
  · simp [Easylog.handler_names, Easylog._add_logger, _logger_record]

/-- Construction with all defaults yields `defaultState`. -/
lemma init_defaultState : Easylog.init none "info" true = Except.ok defaultState := rfl

/-- One auto-named call preserves the shape invariant: the handler names
are exactly `console0 .. console(k-1)` for the current counter `k`. -/
lemma stepOp_auto_inv (s : Easylog) (op : Op) (hop : AutoNamed op)
    (hinv : s.handler_names =
      (List.range s._namecounters.console).map (fun n => "console" ++ Nat.repr n)) :
    (s.stepOp op).handler_names =
      (List.range (s.stepOp op)._namecounters.console).map (fun n => "console" ++ Nat.repr n) := by
  cases op with
  | addConsole ln ll lf st df =>
    obtain rfl : ln = none := hop
    obtain ⟨s', r, he, hh, hn, hname, hty, hlv, hhl, hdf, hfmt, hsink, hc, hf, hg, hll, hlh, hdfs⟩ :=
      add_consolelogger_auto_spec s ll lf st df
    rw [stepOp_ok s (Op.addConsole none ll lf st df) s' he, hn, hname, hc, hinv,
      List.range_succ, List.map_append]
    rfl
  | addFile p ln ll lf df enc md dl =>
    obtain rfl : ln = none := hop
    obtain ⟨s', r, he, hh, hn, hname, hty, hlv, hhl, hdf, hfmt, hsink, hc, hf, hg, hll, hlh, hdfs⟩ :=
      add_filelogger_auto_spec s p ll lf df enc md dl
    rw [stepOp_ok s (Op.addFile p none ll lf df enc md dl) s' he, hn, hname, hc, hinv,
      List.range_succ, List.map_append]
    rfl
  | setFormat n f d =>
    cases hc : s.applyOp (Op.setFormat n f d) with
    | error e => rw [stepOp_error s _ e hc]; exact hinv
    | ok s' => exact absurd hc (set_logformat_not_ok s n f d s')

/-- The auto-name shape invariant holds along any auto-named call
sequence. -/
lemma runOps_auto_inv (ops : List Op) :
    ∀ (s : Easylog), (∀ op ∈ ops, AutoNamed op) →
      s.handler_names =
        (List.range s._namecounters.console).map (fun n => "console" ++ Nat.repr n) →
      (s.runOps ops).handler_names =
        (List.range (s.runOps ops)._namecounters.console).map (fun n => "console" ++ Nat.repr n) := by
  induction ops with
  | nil => intro s _ hinv; exact hinv
  | cons op ops ih =>
    intro s hauto hinv
    exact ih (s.stepOp op) (fun o ho => hauto o (List.mem_cons_of_mem op ho))
      (stepOp_auto_inv s op (hauto op (List.mem_cons_self op ops)) hinv)

/-- A severity string outside the permitted set is rejected. -/
lemma string2loglevel_invalid (lvl : String)
    (h : pyLower lvl ∉ (["critical", "error", "warning", "info", "debug"] : List String)) :
    _string2loglevel lvl = Except.error PyError.valueErrorInvalidLevel := by
  simp only [List.mem_cons, List.mem_singleton, not_or] at h
  obtain ⟨h1, h2, h3, h4, h5⟩ := h
  simp [_string2loglevel, h1, h2, h3, h4, h5]

/-- Construction succeeds with the severity returned by
`_string2loglevel`. -/
lemma init_of_level (ln : Option String) (lvl : String) (cc : Bool) (glevel : Nat)
    (hg : _string2loglevel lvl = Except.ok glevel) :
    ∃ s, Easylog.init ln lvl cc = Except.ok s ∧ s._globallevel = glevel := by
  unfold Easylog.init
  rw [hg]
  simp only [Bind.bind, Except.bind]
  cases cc with
  | false => exact ⟨_, rfl, rfl⟩
  | true =>
    simp only [if_pos rfl]
    obtain ⟨s', r, he, hh, hn, hname, hty, hlv, hhl, hdf, hfmt, hsink, hc, hf, hg', hll, hlh, hdfs⟩ :=
      add_consolelogger_auto_spec
        { _handlers := [], _loggername := ln.getD "easylog", _globallevel := glevel,
          _filecounter := 0, _namecounters := { file := 0, console := 0 },
          _dateformats := { file := "%Y-%m-%dT%H:%M:%S", console := "%I:%M:%S %p" },
          _lognames := [], loggerLevel := loggingDEBUG, loggerHandlers := [] }
        none none none none
    exact ⟨s', he, hg'⟩

/-- C1: the claim says an `add_filelogger` call without explicit formats
resolves the file defaults (`%(asctime)s - %(name)s - %(levelname)s -
%(message)s` and `%Y-%m-%dT%H:%M:%S`).  The code contradicts this: because
`add_filelogger` passes `'console'` to `_log_controls`, the record and
formatter carry the console defaults (`%(levelname)s - %(message)s` and
`%I:%M:%S %p`), as this concrete run shows. -/
theorem c1_add_filelogger_resolves_console_defaults :
    ∃ s s' r, Easylog.init none "info" false = Except.ok s ∧
      s.add_filelogger "x.log" none none none none "utf-8" "a" false = Except.ok s' ∧
      s'._handlers = [r] ∧
      r.handler.formatter = some { fmt := some "%(levelname)s - %(message)s",
                                   datefmt := "%I:%M:%S %p" } ∧
      r.dateformat = "%I:%M:%S %p" ∧
      r.handler.formatter ≠
        some { fmt := some "%(asctime)s - %(name)s - %(levelname)s - %(message)s",
               datefmt := "%Y-%m-%dT%H:%M:%S" } := by
  refine ⟨_, _, _, rfl, rfl, rfl, rfl, rfl, by decide⟩

/-- C2: the claim states the intended polarity of `set_logformat` (raise
`NoHandlersDefinedError` only on an empty registry, `HandlerNotFoundError`
only when no record matches, succeed otherwise).  The code has the
branches inverted: with a registered, matching handler it raises
`NoDefinedHandlersError`, and on an empty registry it crashes with an
`IndexError` from `handler_records[0]`. -/
theorem c2_set_logformat_inverted_polarity :
    (∃ s, Easylog.init none "info" true = Except.ok s ∧
       s.handler_names = ["console0"] ∧
       s._handlers.filter (fun r => r.name = "console0") ≠ [] ∧
       s.set_logformat "console0" "%(message)s" none =
         Except.error (PyError.noDefinedHandlersError
           "No Logging Handlers have been defined")) ∧
    (∃ s, Easylog.init none "info" false = Except.ok s ∧
       s._handlers = [] ∧
       s.set_logformat "console0" "%(message)s" none =
         Except.error PyError.indexError) := by
  constructor
  · exact ⟨defaultState, init_defaultState, rfl, by decide, rfl⟩
  · exact ⟨_, rfl, rfl, rfl⟩

/-- C3: registering with an explicit name equal to an already-registered
handler name fails with the duplicate-name error, and the facade state is
unchanged: no record is appended, no handler attached, and
`handler_names()` is as before. -/
theorem c3_duplicate_name_rejected (s : Easylog) (nm : String)
    (h : nm ∈ s.handler_names) (ll : Option Nat) (lf st df : Option String)
    (p enc md : String) (dl : Bool) :
    s.add_consolelogger (some nm) ll lf st df =
      Except.error (PyError.valueErrorDuplicateName nm) ∧
    s.add_filelogger p (some nm) ll lf df enc md dl =
      Except.error (PyError.valueErrorDuplicateName nm) ∧
    s.stepOp (Op.addConsole (some nm) ll lf st df) = s ∧
    s.stepOp (Op.addFile p (some nm) ll lf df enc md dl) = s := by
  have hd := log_controls_console_dup s nm ll lf df h
  have h1 : s.add_consolelogger (some nm) ll lf st df =
      Except.error (PyError.valueErrorDuplicateName nm) := by
    rw [Easylog.add_consolelogger, hd]; rfl
  have h2 : s.add_filelogger p (some nm) ll lf df enc md dl =
      Except.error (PyError.valueErrorDuplicateName nm) := by
    rw [Easylog.add_filelogger, hd]; rfl
  exact ⟨h1, h2, stepOp_error s (Op.addConsole (some nm) ll lf st df) _ h1,
         stepOp_error s (Op.addFile p (some nm) ll lf df enc md dl) _ h2⟩

/-- Witness for C3 on the default-constructed state. -/
theorem c3_duplicate_name_rejected_witness :
    "console0" ∈ defaultState.handler_names ∧
    defaultState.add_consolelogger (some "console0") none none none none =
      Except.error (PyError.valueErrorDuplicateName "console0") ∧
    defaultState.stepOp (Op.addConsole (some "console0") none none none none) =
      defaultState := by
  have h := c3_duplicate_name_rejected defaultState "console0" (by decide)
    none none none none "x.log" "utf-8" "a" false
  exact ⟨by decide, h.1, h.2.2.1⟩

/-- C4: construction with any letter case of
`critical | error | warning | info | debug` succeeds with the
corresponding ordinal severity in `globallevel`; any other string is
rejected with the invalid-level `ValueError`. -/
theorem c4_construction_severity (lvl : String) (ln : Option String) (cc : Bool) :
    (pyLower lvl = "critical" →
      ∃ s, Easylog.init ln lvl cc = Except.ok s ∧ s._globallevel = loggingCRITICAL) ∧
    (pyLower lvl = "error" →
      ∃ s, Easylog.init ln lvl cc = Except.ok s ∧ s._globallevel = loggingERROR) ∧
    (pyLower lvl = "warning" →
      ∃ s, Easylog.init ln lvl cc = Except.ok s ∧ s._globallevel = loggingWARNING) ∧
    (pyLower lvl = "info" →
      ∃ s, Easylog.init ln lvl cc = Except.ok s ∧ s._globallevel = loggingINFO) ∧
    (pyLower lvl = "debug" →
      ∃ s, Easylog.init ln lvl cc = Except.ok s ∧ s._globallevel = loggingDEBUG) ∧
    (pyLower lvl ∉ (["critical", "error", "warning", "info", "debug"] : List String) →
      Easylog.init ln lvl cc = Except.error PyError.valueErrorInvalidLevel) := by
  refine ⟨?_, ?_, ?_, ?_, ?_, ?_⟩
  · intro h; exact init_of_level ln lvl cc _ (by simp [_string2loglevel, h])
  · intro h; exact init_of_level ln lvl cc _ (by simp [_string2loglevel, h])
  · intro h; exact init_of_level ln lvl cc _ (by simp [_string2loglevel, h])
  · intro h; exact init_of_level ln lvl cc _ (by simp [_string2loglevel, h])
  · intro h; exact init_of_level ln lvl cc _ (by simp [_string2loglevel, h])
  · intro h
    have hg := string2loglevel_invalid lvl h
    unfold Easylog.init
    rw [hg]
    rfl

/-- Witness for C4 at `"InFo"` and `"bogus"`. -/
theorem c4_construction_severity_witness :
    (∃ s, Easylog.init none "InFo" false = Except.ok s ∧ s._globallevel = loggingINFO) ∧
    Easylog.init none "bogus" true = Except.error PyError.valueErrorInvalidLevel :=
  ⟨(c4_construction_severity "InFo" none false).2.2.2.1 (by decide),
   (c4_construction_severity "bogus" none true).2.2.2.2.2 (by decide)⟩

/-- C5 counterexample: an explicit name `console0` followed by an
auto-named registration yields two handlers both named `console0`, so
handler names are not pairwise distinct in every reachable state. -/
theorem c5_name_collision_counterexample :
    ∃ s0 s1 s2, Easylog.init none "info" false = Except.ok s0 ∧
      s0.add_consolelogger (some "console0") none none none none = Except.ok s1 ∧
      s1.add_consolelogger none none none none none = Except.ok s2 ∧
      s2.handler_names = ["console0", "console0"] ∧
      ¬ s2.handler_names.Nodup := by
  refine ⟨_, _, _, rfl, rfl, rfl, rfl, by decide⟩

/-- C5 amended: auto-generated names are `console` followed by the
counter value, the per-type counter never decreases, and along any
call sequence that supplies no explicit names the registered names are
exactly `console0 .. console(k-1)`, pairwise distinct. -/
theorem c5_auto_names_unique (ln : Option String) (gl : String) (cc : Bool)
    (s0 : Easylog) (ops : List Op)
    (hinit : Easylog.init ln gl cc = Except.ok s0)
    (hauto : ∀ op ∈ ops, AutoNamed op) :
    (s0.runOps ops).handler_names =
      (List.range (s0.runOps ops)._namecounters.console).map
        (fun n => "console" ++ Nat.repr n) ∧
    (s0.runOps ops).handler_names.Nodup ∧
    ∀ op : Op, (s0.runOps ops)._namecounters.console ≤
      ((s0.runOps ops).stepOp op)._namecounters.console := by
  obtain ⟨hg, hdbg, hfile, hdfs, hnames⟩ := init_ok_fields ln gl cc s0 hinit
  have hinv := runOps_auto_inv ops s0 hauto hnames
  refine ⟨hinv, ?_, ?_⟩
  · rw [hinv]
    exact (List.nodup_range _).map
      (fun a b hab => consoleName_inj a b hab)
  · intro op
    exact (stepOp_preserves (s0.runOps ops) op).2.2.2.2

/-- Witness for the amended C5 on the default-constructed state. -/
theorem c5_auto_names_unique_witness :
    defaultState.handler_names =
      (List.range defaultState._namecounters.console).map
        (fun n => "console" ++ Nat.repr n) ∧
    defaultState.handler_names.Nodup := by
  have h := c5_auto_names_unique none "info" true defaultState []
    init_defaultState (by simp)
  exact ⟨h.1, h.2.1⟩

/-- C6: construction with auto-console gives exactly `[console0]`, and a
second auto-named console registration gives `[console0, console1]`. -/
theorem c6_auto_console_names :
    ∃ s s', Easylog.init none "info" true = Except.ok s ∧
      s.handler_names = ["console0"] ∧
      s.add_consolelogger none none none none none = Except.ok s' ∧
      s'.handler_names = ["console0", "console1"] := by
  refine ⟨_, _, rfl, rfl, rfl, rfl⟩

/-- C7: in every reachable state the underlying logger's own threshold is
`logging.DEBUG`; the global level equals the value captured at
construction; and a registration without an explicit level records the
global level on both the record and the attached handler. -/
theorem c7_default_level_and_logger_threshold (ln : Option String) (gl : String)
    (cc : Bool) (s0 : Easylog) (ops : List Op) (s : Easylog)
    (hinit : Easylog.init ln gl cc = Except.ok s0) (hs : s = s0.runOps ops)
    (lnm : Option String) (lf st df : Option String) (p enc md : String) (dl : Bool) :
    s.loggerLevel = loggingDEBUG ∧
    _string2loglevel gl = Except.ok s._globallevel ∧
    s._globallevel = s0._globallevel ∧
    (∀ s', s.add_consolelogger lnm none lf st df = Except.ok s' →
       ∃ r, s'._handlers = s._handlers ++ [r] ∧ r.loglevel = s0._globallevel ∧
            r.handler.level = s0._globallevel) ∧
    (∀ s', s.add_filelogger p lnm none lf df enc md dl = Except.ok s' →
       ∃ r, s'._handlers = s._handlers ++ [r] ∧ r.loglevel = s0._globallevel ∧
            r.handler.level = s0._globallevel) := by
  obtain ⟨hg, hdbg, hfile, hdfs, hnames⟩ := init_ok_fields ln gl cc s0 hinit
  obtain ⟨p1, p2, p3, p4⟩ := runOps_preserves ops s0
  subst hs
  refine ⟨p4.trans hdbg, ?_, p1, ?_, ?_⟩
  · rw [p1]; exact hg
  · intro s' hok
    obtain ⟨s₁, lc, h1, h2⟩ := add_consolelogger_ok_inv _ lnm none lf st df s' hok
    obtain ⟨g1, g2, g3, g4, g5, g6, g7, g8, g9, g10⟩ :=
      log_controls_console_state _ lnm none lf df s₁ lc h1
    subst h2
    refine ⟨_logger_record { sink := HandlerSink.stream st, level := lc.loglevel,
                             formatter := some lc.logformat } lc.logname lc.logtype
              lc.loglevel lc.dateformat, ?_, ?_, ?_⟩
    · rw [(add_logger_fields s₁ _ lc).1, g1]
    · simp only [_logger_record]
      rw [g8, Option.getD_none, p1]
    · simp only [_logger_record]
      rw [g8, Option.getD_none, p1]
  · intro s' hok
    obtain ⟨s₁, lc, h1, h2⟩ := add_filelogger_ok_inv _ p lnm none lf df enc md dl s' hok
    obtain ⟨g1, g2, g3, g4, g5, g6, g7, g8, g9, g10⟩ :=
      log_controls_console_state _ lnm none lf df s₁ lc h1
    subst h2
    refine ⟨_logger_record { sink := HandlerSink.file p md enc dl, level := lc.loglevel,
                             formatter := some lc.logformat } lc.logname lc.logtype
              lc.loglevel lc.dateformat, ?_, ?_, ?_⟩
    · rw [(add_logger_fields s₁ _ lc).1, g1]
    · simp only [_logger_record]
      rw [g8, Option.getD_none, p1]
    · simp only [_logger_record]
      rw [g8, Option.getD_none, p1]

/-- Witness for C7 on the default-constructed state. -/
theorem c7_default_level_and_logger_threshold_witness :
    defaultState.loggerLevel = loggingDEBUG ∧
    _string2loglevel "info" = Except.ok defaultState._globallevel := by
  have h := c7_default_level_and_logger_threshold none "info" true defaultState []
    defaultState init_defaultState rfl none none none none "x.log" "utf-8" "a" false
  exact ⟨h.1, h.2.1⟩

/-- C8: registering with an explicit message format and date format stores
exactly those strings in the resolved record: the record's `dateformat`
field and its handler's formatter read back unchanged. -/
theorem c8_explicit_format_roundtrip (s : Easylog) (f d : String) (ll : Option Nat)
    (st : Option String) (p enc md : String) (dl : Bool) :
    (∃ s' r, s.add_consolelogger none ll (some f) st (some d) = Except.ok s' ∧
       s'._handlers = s._handlers ++ [r] ∧ r.dateformat = d ∧
       r.handler.formatter = some { fmt := some f, datefmt := d }) ∧
    (∃ s' r, s.add_filelogger p none ll (some f) (some d) enc md dl = Except.ok s' ∧
       s'._handlers = s._handlers ++ [r] ∧ r.dateformat = d ∧
       r.handler.formatter = some { fmt := some f, datefmt := d }) := by
  constructor
  · obtain ⟨s', r, he, hh, hn, hname, hty, hlv, hhl, hdf, hfmt, hsink, hc, hf2, hg, hll, hlh, hdfs⟩ :=
      add_consolelogger_auto_spec s ll (some f) st (some d)
    exact ⟨s', r, he, hh, by simpa using hdf, by simpa using hfmt⟩
  · obtain ⟨s', r, he, hh, hn, hname, hty, hlv, hhl, hdf, hfmt, hsink, hc, hf2, hg, hll, hlh, hdfs⟩ :=
      add_filelogger_auto_spec s p ll (some f) (some d) enc md dl
    exact ⟨s', r, he, hh, by simpa using hdf, by simpa using hfmt⟩

/-- C9: `handler_names()` is the pure projection of the record list in
insertion order, logging calls do not alter it, and every successful
registration appends exactly one name at the end. -/
theorem c9_handler_names_stable_and_ordered (s : Easylog) (m : String) (op : Op) :
    s.handler_names = s._handlers.map LoggerRecord.name ∧
    (s.log_critical m).1.handler_names = s.handler_names ∧
    (s.log_error m).1.handler_names = s.handler_names ∧
    (s.log_warning m).1.handler_names = s.handler_names ∧
    (s.log_info m).1.handler_names = s.handler_names ∧
    (s.log_debug m).1.handler_names = s.handler_names ∧
    (∀ s', s.applyOp op = Except.ok s' →
       ∃ nm, s'.handler_names = s.handler_names ++ [nm]) := by
  refine ⟨rfl, rfl, rfl, rfl, rfl, rfl, ?_⟩
  intro s' hok
  cases op with
  | addConsole ln ll lf st df =>
    obtain ⟨s₁, lc, h1, h2⟩ := add_consolelogger_ok_inv s ln ll lf st df s' hok
    obtain ⟨g1, _⟩ := log_controls_console_state s ln ll lf df s₁ lc h1
    subst h2
    refine ⟨lc.logname, ?_⟩
    rw [add_logger_handler_names]
    simp [Easylog.handler_names, g1]
  | addFile p ln ll lf df enc md dl =>
    obtain ⟨s₁, lc, h1, h2⟩ := add_filelogger_ok_inv s p ln ll lf df enc md dl s' hok
    obtain ⟨g1, _⟩ := log_controls_console_state s ln ll lf df s₁ lc h1
    subst h2
    refine ⟨lc.logname, ?_⟩
    rw [add_logger_handler_names]
    simp [Easylog.handler_names, g1]
  | setFormat n f d => exact absurd hok (set_logformat_not_ok s n f d s')

/-- Witness for C9 on the default-constructed state. -/
theorem c9_handler_names_stable_and_ordered_witness :
    ∃ nm, (defaultState.stepOp (Op.addConsole none none none none none)).handler_names =
      defaultState.handler_names ++ [nm] := by
  have h := (c9_handler_names_stable_and_ordered defaultState "m"
    (Op.addConsole none none none none none)).2.2.2.2.2.2
  exact h _ rfl

/-- C10: every `add_filelogger` call produces a record whose
destination-type field is `console`; an auto-generated name is drawn from
the console counter; the file counter stays `0` in every reachable state;
and no auto-generated name starts with `file`. -/
theorem c10_filelogger_console_typed (ln : Option String) (gl : String) (cc : Bool)
    (s0 : Easylog) (ops : List Op) (s : Easylog)
    (hinit : Easylog.init ln gl cc = Except.ok s0) (hs : s = s0.runOps ops)
    (p : String) (ll : Option Nat) (lf df : Option String) (enc md : String) (dl : Bool) :
    s._namecounters.file = 0 ∧
    ∃ s' r, s.add_filelogger p none ll lf df enc md dl = Except.ok s' ∧
      s'._handlers = s._handlers ++ [r] ∧
      r.loggertype = "console" ∧
      r.name = "console" ++ Nat.repr s._namecounters.console ∧
      s'._namecounters.console = s._namecounters.console + 1 ∧
      s'._namecounters.file = 0 ∧
      (∀ rest, r.name ≠ "file" ++ rest) := by
  obtain ⟨hg, hdbg, hfile, hdfs, hnames⟩ := init_ok_fields ln gl cc s0 hinit
  obtain ⟨p1, p2, p3, p4⟩ := runOps_preserves ops s0
  subst hs
  have hfile0 : (s0.runOps ops)._namecounters.file = 0 := p2.trans hfile
  obtain ⟨s', r, he, hh, hn, hname, hty, hlv, hhl, hdf, hfmt, hsink, hc, hf2, hg2, hll, hlh, hdfs2⟩ :=
    add_filelogger_auto_spec (s0.runOps ops) p ll lf df enc md dl
  refine ⟨hfile0, s', r, he, hh, hty, hname, hc, hf2.trans hfile0, ?_⟩
  intro rest
  rw [hname]
  exact consoleName_ne_file _ rest

/-- Witness for C10 on the default-constructed state. -/
theorem c10_filelogger_console_typed_witness :
    defaultState._namecounters.file = 0 ∧
    ∃ s' r, defaultState.add_filelogger "x.log" none none none none "utf-8" "a" false =
        Except.ok s' ∧
      s'._handlers = defaultState._handlers ++ [r] ∧
      r.loggertype = "console" ∧
      r.name = "console" ++ Nat.repr defaultState._namecounters.console ∧
      s'._namecounters.console = defaultState._namecounters.console + 1 ∧
      s'._namecounters.file = 0 ∧
      (∀ rest, r.name ≠ "file" ++ rest) :=
  c10_filelogger_console_typed none "info" true defaultState [] defaultState
    init_defaultState rfl "x.log" none none none "utf-8" "a" false
